import Mathlib

/-!
Verification of the CivicConnect backend (Express + Mongoose, `Backend/src/index.ts`
and the report schema).  The TypeScript source is shallowly embedded: JS strings
become `String`, JS numbers used for coordinates become `ℚ`, timestamps become `Nat`,
JSON optionality becomes `Option`, the MongoDB collections become Lean lists, and each
route handler becomes a pure function from its inputs (and the store) to a response
value carrying the HTTP status code and payload.
-/

/-! ## JavaScript string primitives used by the backend -/

/-- Embedding of the JS `String.prototype.trim` over the character list:
whitespace is stripped from both ends. -/
def trimChars (l : List Char) : List Char :=
  ((l.dropWhile Char.isWhitespace).reverse.dropWhile Char.isWhitespace).reverse

/-- JS `s.trim()`. -/
def trimS (s : String) : String :=
  ⟨trimChars s.data⟩

/-- JS `s.toLowerCase()` (the source only lower-cases ASCII keyword text). -/
def lowerS (s : String) : String :=
  ⟨s.data.map Char.toLower⟩

/-- Does `hay` start with `needle` (character-wise)? -/
def listStarts : List Char → List Char → Bool
  | _, [] => true
  | [], _ :: _ => false
  | a :: as, b :: bs => a == b && listStarts as bs

/-- Is `needle` a contiguous substring of the second argument? -/
def listContains (needle : List Char) : List Char → Bool
  | [] => listStarts [] needle
  | c :: t => listStarts (c :: t) needle || listContains needle t

/-- JS `hay.includes(needle)` for strings: contiguous substring test. -/
def strIncludes (hay needle : String) : Bool :=
  listContains needle.data hay.data

/-! ## Keyword classifier (`CIVIC_CATEGORIES`, `categorizeIssue`) -/

/-- The fixed category-keyword table, in its exact source declaration order. -/
def CIVIC_CATEGORIES : List (String × List String) :=
  [("Water & Supply Management",
    ["water", "pipe", "leak", "burst", "supply", "shortage", "contamination",
     "drinking water", "tap", "bore well", "water tank", "pipeline"]),
   ("Electricity",
    ["power", "electricity", "cable", "wire", "transformer", "outage",
     "blackout", "street light", "electric pole", "power line", "voltage"]),
   ("Public Health & Safety",
    ["health", "medical", "hospital", "clinic", "ambulance", "safety",
     "accident", "injury", "disease", "epidemic", "vaccination"]),
   ("Fire & Emergency Services",
    ["fire", "emergency", "rescue", "disaster", "flood", "earthquake",
     "burning", "smoke", "evacuation", "hazard", "danger"]),
   ("Sanitation & Waste Management",
    ["garbage", "waste", "trash", "dustbin", "cleaning", "sewage", "drain",
     "toilet", "sanitation", "hygiene", "overflow", "dump", "litter"]),
   ("Roads & Infrastructure",
    ["road", "pothole", "street", "bridge", "footpath", "sidewalk",
     "traffic", "construction", "repair", "maintenance", "pavement"]),
   ("Public Transportation",
    ["bus", "transport", "metro", "railway", "station", "traffic signal",
     "parking", "vehicle", "auto", "rickshaw"]),
   ("Parks & Environment",
    ["park", "tree", "garden", "environment", "pollution", "noise",
     "air quality", "green space", "plantation", "encroachment"])]

/-- Loop body of `categorizeIssue`: does the lower-cased description contain
some keyword of the given category row? -/
def catMatches (description : String) (ck : String × List String) : Bool :=
  ck.2.any (fun kw => strIncludes (lowerS description) kw)

/-- `categorizeIssue` from the source: first matching category in declaration
order, defaulting to the literal "General Issues". -/
def categorizeIssue (description : String) : String :=
  match CIVIC_CATEGORIES.find? (catMatches description) with
  | some ck => ck.1
  | none => "General Issues"

/-! ## Severity and category enums, `/ai/describe` severity validation -/

/-- The fixed 9-value category enum used by both the route validation and the
Mongoose schema. -/
def validCategories : List String :=
  ["Water & Supply Management", "Electricity", "Public Health & Safety",
   "Fire & Emergency Services", "Sanitation & Waste Management",
   "Roads & Infrastructure", "Public Transportation",
   "Parks & Environment", "General Issues"]

/-- The fixed severity enum. -/
def validSeverities : List String := ["Low", "Medium", "High"]

/-- The fixed status enum of the Mongoose report schema. -/
def validStatuses : List String :=
  ["Submitted", "Acknowledged", "In Progress", "Resolved", "Closed"]

/-- Severity validation step of `POST /ai/describe`: trim, keep an exact
enum member, otherwise fall back to "Medium". -/
def finalSeverity (severity : String) : String :=
  let cleanSeverity := trimS severity
  if cleanSeverity ∈ validSeverities then cleanSeverity else "Medium"

/-! ## Data model: users and persisted reports -/

/-- A stored user, reduced to the fields the report routes consult. -/
structure UserR where
  id : String
  role : String
deriving DecidableEq

/-- One entry of the append-only status history.  The source field `by` is a
Lean keyword, so it is rendered `by_`. -/
structure StatusEntry where
  status : String
  timestamp : Nat
  by_ : String
  comment : Option String
deriving DecidableEq

/-- A persisted report document.  Coordinates are embedded as rationals; the
store-assigned document id is a plain string. -/
structure ReportR where
  id : String
  userId : String
  description : String
  lat : ℚ
  lng : ℚ
  address : String
  images : List String
  category : String
  severity : String
  status : String
  statusHistory : List StatusEntry
  createdAt : Nat
deriving DecidableEq

/-! ## `POST /api/reports` (ingestion pipeline) -/

/-- The location object of a submission request body; every field may be
absent. -/
structure LocReq where
  lat : Option ℚ
  lng : Option ℚ
  address : Option String
deriving DecidableEq

/-- The JSON body of `POST /api/reports`; every field may be absent. -/
structure PostReq where
  description : Option String
  location : Option LocReq
  images : Option (List String)
  category : Option String
  severity : Option String
deriving DecidableEq

/-- Outcome of a submission: the persisted report, or an HTTP error. -/
inductive PostResult where
  | created (report : ReportR)
  | err (code : Nat) (msg : String)
deriving DecidableEq

/-- `newReport.save()`: Mongoose schema validation of the report document
(required non-empty strings, category / severity / status enums, coordinate
bounds).  A validation failure surfaces through the route catch block as the
500 response. -/
def saveReport (r : ReportR) : PostResult :=
  if r.description ≠ "" ∧ r.address ≠ "" ∧ (∀ i ∈ r.images, i ≠ "") ∧
     r.category ∈ validCategories ∧ r.severity ∈ validSeverities ∧
     r.status ∈ validStatuses ∧
     -90 ≤ r.lat ∧ r.lat ≤ 90 ∧ -180 ≤ r.lng ∧ r.lng ≤ 180 then
    .created r
  else
    .err 500 "Failed to submit report"

/-- The `POST /api/reports` handler after authentication: `uid` is the
authenticated `req.userId`, `now` the wall clock used for `new Date()`.
The truthiness tests of the source (`!description`, `!location.lat`, ...)
are rendered explicitly: a missing field, an empty string, and the number 0
are falsy; a present array is truthy.  All conditions that feed the first
400 response produce the same message, so the four-way presence test is a
single match. -/
def postReport (uid : String) (now : Nat) (r : PostReq) : PostResult :=
  match r.description, r.location, r.images, r.category with
  | some d, some loc, some imgs, some cat =>
    if d = "" ∨ cat = "" then
      .err 400 "Description, location, images, and category are required"
    else
      match loc.lat, loc.lng, loc.address with
      | some la, some ln, some ad =>
        if la = 0 ∨ ln = 0 ∨ ad = "" then
          .err 400 "Location must include lat, lng, and address"
        else if imgs = [] then
          .err 400 "At least one image is required"
        else if la < -90 ∨ la > 90 then
          .err 400 "Latitude must be between -90 and 90"
        else if ln < -180 ∨ ln > 180 then
          .err 400 "Longitude must be between -180 and 180"
        else if cat ∉ validCategories then
          .err 400 "Invalid category"
        else
          saveReport
            { id := ""
              userId := uid
              description := trimS d
              lat := la
              lng := ln
              address := trimS ad
              images := imgs
              category := cat
              severity := match r.severity with
                          | some s => if s = "" then "Medium" else s
                          | none => "Medium"
              status := "Submitted"
              statusHistory := [⟨"Submitted", now, "system",
                                some "Report submitted by user"⟩]
              createdAt := now }
      | _, _, _ => .err 400 "Location must include lat, lng, and address"
  | _, _, _, _ =>
    .err 400 "Description, location, images, and category are required"

/-- A request body that passes every submission check, parameterized by the
coordinates (used to probe the boundary behaviour). -/
def mkReq (la ln : ℚ) : PostReq :=
  { description := some "desc"
    location := some ⟨some la, some ln, some "addr"⟩
    images := some ["img"]
    category := some "General Issues"
    severity := some "Low" }

/-- The report `postReport "u1" 42 (mkReq 90 (-180))` persists. -/
def sampleRpt : ReportR :=
  { id := ""
    userId := "u1"
    description := "desc"
    lat := 90
    lng := -180
    address := "addr"
    images := ["img"]
    category := "General Issues"
    severity := "Low"
    status := "Submitted"
    statusHistory := [⟨"Submitted", 42, "system", some "Report submitted by user"⟩]
    createdAt := 42 }

/-! ## `GET /api/reports/:id` -/

/-- `mongoose.Types.ObjectId.isValid` on a string argument: a 24-character
hexadecimal string, or any 12-character string. -/
def isValidObjectId (s : String) : Bool :=
  s.length == 12 ||
    (s.length == 24 &&
      s.data.all (fun c =>
        c.isDigit || ( 'a' ≤ c && c ≤ 'f') || ( 'A' ≤ c && c ≤ 'F')))

/-- Outcome of the by-id fetch: the enriched 200 payload, or an HTTP error.
The error arm carries no report data at all. -/
inductive IdResult where
  | ok (report : ReportR) (timeSinceSubmission : Int) (canEdit isOwnReport : Bool)
  | err (code : Nat) (msg : String)
deriving DecidableEq

/-- The `GET /api/reports/:id` handler after authentication: id-format check,
report lookup, requester lookup, then the ownership / admin check, and
finally the metadata-enriched payload. -/
def getReportById (users : List UserR) (db : List ReportR) (now : Nat)
    (me : String) (id : String) : IdResult :=
  if !(isValidObjectId id) then
    .err 400 "Invalid report ID format"
  else
    match db.find? (fun r => r.id == id) with
    | none => .err 404 "Report not found"
    | some report =>
      match users.find? (fun u => u.id == me) with
      | none => .err 404 "User not found"
      | some currentUser =>
        if currentUser.role != "admin" && report.userId != me then
          .err 403 "Access denied. You can only view your own reports."
        else
          .ok report ((now : Int) - (report.createdAt : Int))
            (currentUser.role == "admin" || report.userId == me)
            (report.userId == me)

/-! ## `GET /api/reports` (list, scoping, pagination) -/

/-- The query-string filters of the list endpoint (besides page and limit). -/
structure ListQuery where
  status : Option String
  category : Option String
  userId : Option String
deriving DecidableEq

/-- The Mongo query object built by the handler. -/
structure QueryF where
  userId : Option String
  status : Option String
  category : Option String
deriving DecidableEq

/-- JS truthiness guard `if (x) query.f = x` for a query-string value:
an absent or empty string imposes no filter. -/
def presentQ : Option String → Option String
  | none => none
  | some s => if s = "" then none else some s

/-- Query construction of the list handler: a non-admin requester is always
restricted to their own reports (a caller-supplied `userId` is ignored);
an admin may filter by a caller-supplied `userId`. -/
def buildQuery (currentUser : UserR) (me : String) (q : ListQuery) : QueryF :=
  { userId := if currentUser.role ≠ "admin" then some me else presentQ q.userId
    status := presentQ q.status
    category := presentQ q.category }

/-- Does a stored report match the Mongo query object? -/
def qMatches (f : QueryF) (r : ReportR) : Bool :=
  (match f.userId with | some u => r.userId == u | none => true) &&
  (match f.status with | some s => r.status == s | none => true) &&
  (match f.category with | some c => r.category == c | none => true)

/-- Sort key of the handler sort stage, `createdAt: -1`: descending creation
time, i.e. `olderRel a b` holds when `b` was created no later than `a`. -/
def olderRel (a b : ReportR) : Prop :=
  b.createdAt ≤ a.createdAt

instance : DecidableRel olderRel :=
  fun a b => Nat.decLe b.createdAt a.createdAt

instance : IsTotal ReportR olderRel :=
  ⟨fun a b => Or.symm (Nat.le_total a.createdAt b.createdAt)⟩

instance : IsTrans ReportR olderRel :=
  ⟨fun _ _ _ hab hbc => Nat.le_trans hbc hab⟩

/-- The store sorting reports newest-first. -/
def sortDesc (l : List ReportR) : List ReportR :=
  l.insertionSort olderRel

/-- `Math.ceil(totalReports / limitNum)` on the exactly-represented values the
handler produces (the model assumes a positive limit). -/
def mathCeilDiv (n l : Nat) : Nat :=
  if n % l = 0 then n / l else n / l + 1

/-- The pagination metadata block of the list response. -/
structure Pagination where
  currentPage : Nat
  totalPages : Nat
  totalReports : Nat
  hasNext : Bool
  hasPrev : Bool
deriving DecidableEq

/-- The list response: page of reports, pagination metadata, echoed filters. -/
structure ListResult where
  reports : List ReportR
  pagination : Pagination
  filters : Option String × Option String × Option String
deriving DecidableEq

/-- Body of the list handler once the requesting user is resolved: build the
query, filter, sort newest-first, apply `skip = (page-1)*limit` then the
limit, and compute the metadata from the total matching count. -/
def listCore (currentUser : UserR) (me : String) (db : List ReportR)
    (q : ListQuery) (page limit : Nat) : ListResult :=
  let f := buildQuery currentUser me q
  let matching := db.filter (qMatches f)
  let skip := (page - 1) * limit
  let totalReports := matching.length
  let totalPages := mathCeilDiv totalReports limit
  { reports := ((sortDesc matching).drop skip).take limit
    pagination :=
      { currentPage := page
        totalPages := totalPages
        totalReports := totalReports
        hasNext := decide (page < totalPages)
        hasPrev := decide (1 < page) }
    filters := (q.status, q.category, q.userId) }

/-- Outcome of the authenticated list endpoint. -/
inductive ListOut where
  | ok (res : ListResult)
  | err (code : Nat) (msg : String)
deriving DecidableEq

/-- The `GET /api/reports` handler after authentication: resolve the
requesting user (404 when gone), then run the query. -/
def getReports (users : List UserR) (db : List ReportR) (me : String)
    (q : ListQuery) (page limit : Nat) : ListOut :=
  match users.find? (fun u => u.id == me) with
  | none => .err 404 "User not found"
  | some currentUser => .ok (listCore currentUser me db q page limit)

/-! ## Concrete stores used to exercise the endpoints -/

/-- A minimal stored report owned by `owner`, created at time `i`. -/
def mkRpt (owner : String) (i : Nat) : ReportR :=
  { id := "aaaaaaaaaaaaaaaaaaaaaaaa"
    userId := owner
    description := "d"
    lat := 1
    lng := 1
    address := "a"
    images := ["img"]
    category := "General Issues"
    severity := "Low"
    status := "Submitted"
    statusHistory := [⟨"Submitted", i, "system", some "Report submitted by user"⟩]
    createdAt := i }

/-- An admin account. -/
def adminUser : UserR := ⟨"ad1", "admin"⟩

/-- A citizen account. -/
def citizenA : UserR := ⟨"uA", "citizen"⟩

/-- A second citizen account. -/
def citizenB : UserR := ⟨"uB", "citizen"⟩

/-- A store of 25 reports all owned by the admin account. -/
def demo25 : List ReportR := (List.range 25).map (mkRpt "ad1")

/-- A store with 3 reports owned by citizen A and 5 owned by others. -/
def demo8 : List ReportR :=
  (List.range 3).map (mkRpt "uA") ++ (List.range 5).map (mkRpt "uB")

/-- The empty list query. -/
def noFilters : ListQuery := ⟨none, none, none⟩

/-! ## Helper lemmas -/

/-- `List.find?` returns the element at the first index whose prefix contains
no match. -/
theorem find?_eq_get_of_take {α : Type} (p : α → Bool) (l : List α) :
    ∀ (i : Nat) (hi : i < l.length),
      p (l.get ⟨i, hi⟩) = true →
      (∀ a ∈ l.take i, p a = false) →
      l.find? p = some (l.get ⟨i, hi⟩) := by
  induction l with
  | nil => intro i hi _ _; simp at hi
  | cons x t ih =>
    intro i hi hp hmin
    cases i with
    | zero =>
      simp only [List.get] at hp ⊢
      simp [List.find?, hp]
    | succ n =>
      have hx : p x = false := hmin x (by simp)
      simp only [List.get] at hp ⊢
      rw [List.find?_cons_of_neg _ (by simp [hx])]
      exact ih n (Nat.lt_of_succ_lt_succ hi) hp
        (fun a ha => hmin a (by simp [List.take, ha]))

/-- `Math.ceil` of an exact quotient agrees with the usual natural-number
ceiling division. -/
theorem mathCeilDiv_eq (n l : Nat) (hl : 0 < l) :
    mathCeilDiv n l = (n + l - 1) / l := by
  unfold mathCeilDiv
  by_cases h : n % l = 0
  · rw [if_pos h]
    obtain ⟨k, rfl⟩ := Nat.dvd_of_mod_eq_zero h
    have h1 : l * k + l - 1 = l * k + (l - 1) := by omega
    have h3 : l - 1 < l := by omega
    rw [Nat.mul_div_cancel_left k hl, h1, Nat.mul_add_div hl,
      Nat.div_eq_of_lt h3]
    omega
  · rw [if_neg h]
    have h2 : n % l < l := Nat.mod_lt _ hl
    have h0 : 0 < n % l := Nat.pos_of_ne_zero h
    have h1 : n + l - 1 = l * (n / l) + ((n % l - 1) + l) := by
      have hd := Nat.div_add_mod n l
      omega
    have h3 : n % l - 1 < l := by omega
    rw [h1, Nat.mul_add_div hl, Nat.add_div_right _ hl,
      Nat.div_eq_of_lt h3]

/-- Inversion of a successful submission: shape and validity of the persisted
report. -/
theorem postReport_created_shape (uid : String) (now : Nat) (req : PostReq)
    (rpt : ReportR) (h : postReport uid now req = .created rpt) :
    rpt.userId = uid ∧ rpt.status = "Submitted" ∧
    rpt.statusHistory =
      [⟨"Submitted", now, "system", some "Report submitted by user"⟩] ∧
    rpt.category ∈ validCategories ∧ rpt.severity ∈ validSeverities ∧
    rpt.lat ≠ 0 ∧ rpt.lng ≠ 0 ∧ rpt.createdAt = now := by
  unfold postReport at h
  split at h
  · split at h
    · simp at h
    · split at h
      · split at h
        · simp at h
        · split at h
          · simp at h
          · split at h
            · simp at h
            · split at h
              · simp at h
              · split at h
                · simp at h
                · unfold saveReport at h
                  split at h
                  · rename_i hzero _ _ _ _ hvalid
                    cases h
                    refine ⟨rfl, rfl, rfl, hvalid.2.2.2.1, hvalid.2.2.2.2.1,
                      ?_, ?_, rfl⟩
                    · exact fun hla => hzero (Or.inl hla)
                    · exact fun hln => hzero (Or.inr (Or.inl hln))
                  · simp at h
      · simp at h
  · simp at h

/-! ## Claim theorems -/

/-- Claim C4: the keyword classifier lower-cases the description and returns
the first category, in the fixed declaration order of `CIVIC_CATEGORIES`,
whose keyword set has a case-insensitive substring match, and returns
General Issues when no keyword matches; a description containing keywords of
two categories (pothole: Roads, fire: Fire) resolves to the earlier-declared
one. -/
theorem categorizeIssue_first_match :
    (∀ (d : String) (i : Nat) (hi : i < CIVIC_CATEGORIES.length),
      catMatches d (CIVIC_CATEGORIES.get ⟨i, hi⟩) = true →
      (∀ ck ∈ CIVIC_CATEGORIES.take i, catMatches d ck = false) →
      categorizeIssue d = (CIVIC_CATEGORIES.get ⟨i, hi⟩).1) ∧
    (∀ d : String, (∀ ck ∈ CIVIC_CATEGORIES, catMatches d ck = false) →
      categorizeIssue d = "General Issues") ∧
    categorizeIssue "pothole fire" = "Fire & Emergency Services" := by
  refine ⟨?_, ?_, by decide⟩
  · intro d i hi hp hmin
    unfold categorizeIssue
    rw [find?_eq_get_of_take (catMatches d) CIVIC_CATEGORIES i hi hp hmin]
  · intro d hnone
    unfold categorizeIssue
    rw [List.find?_eq_none.mpr (fun x hx => by simp [hnone x hx])]

/-- Witness for C4: the Fire category sits at index 3, matches the probe
description, no earlier category matches, and the classifier returns it. -/
theorem categorizeIssue_first_match_witness :
    catMatches "pothole fire" (CIVIC_CATEGORIES.get ⟨3, by decide⟩) = true ∧
    categorizeIssue "pothole fire" = (CIVIC_CATEGORIES.get ⟨3, by decide⟩).1 :=
  ⟨by decide,
   categorizeIssue_first_match.1 "pothole fire" 3 (by decide) (by decide)
     (by decide)⟩

/-- Claim C6: severity validation is an exact case-sensitive match on the
trimmed label: the trimmed label is returned unchanged exactly when it is one
of Low, Medium, High, and every other input (empty string and case variants
included) resolves to Medium. -/
theorem finalSeverity_exact :
    (∀ s : String,
      (finalSeverity s = trimS s ↔ trimS s ∈ validSeverities) ∧
      (trimS s ∉ validSeverities → finalSeverity s = "Medium")) ∧
    finalSeverity "urgent" = "Medium" ∧ finalSeverity "high" = "Medium" ∧
    finalSeverity "" = "Medium" ∧ finalSeverity "High" = "High" ∧
    finalSeverity "Low" = "Low" ∧ finalSeverity "Medium" = "Medium" := by
  refine ⟨?_, by decide, by decide, by decide, by decide, by decide, by decide⟩
  intro s
  by_cases h : trimS s ∈ validSeverities
  · exact ⟨⟨fun _ => h, fun _ => by simp [finalSeverity, h]⟩,
      fun hn => absurd h hn⟩
  · have hm : finalSeverity s = "Medium" := by simp [finalSeverity, h]
    refine ⟨⟨fun he => ?_, fun hin => absurd hin h⟩, fun _ => hm⟩
    have ht : trimS s = "Medium" := he.symm.trans hm
    rw [ht]
    decide

/-- Witness for C6: a padded severity is trimmed and kept, an unknown one
falls back to Medium. -/
theorem finalSeverity_exact_witness :
    trimS " High " ∈ validSeverities ∧
    finalSeverity " High " = trimS " High " ∧
    finalSeverity "zzz" = "Medium" :=
  ⟨by decide,
   (finalSeverity_exact.1 " High ").1.mpr (by decide),
   (finalSeverity_exact.1 "zzz").2 (by decide)⟩

/-- Claim C3: every successful submission persists a report whose status
history is exactly the single seeded entry (Submitted, by system, comment
Report submitted by user) and whose status field is Submitted, equal to the
status of the most recent history entry. -/
theorem submit_seeds_history :
    ∀ (uid : String) (now : Nat) (req : PostReq) (rpt : ReportR),
      postReport uid now req = .created rpt →
      rpt.statusHistory.length = 1 ∧
      rpt.statusHistory =
        [⟨"Submitted", now, "system", some "Report submitted by user"⟩] ∧
      rpt.status = "Submitted" ∧
      rpt.statusHistory.head? =
        some ⟨rpt.status, now, "system", some "Report submitted by user"⟩ := by
  intro uid now req rpt h
  obtain ⟨-, h2, h3, -⟩ := postReport_created_shape uid now req rpt h
  refine ⟨by rw [h3]; rfl, h3, h2, ?_⟩
  rw [h3, h2]
  rfl

/-- Witness for C3: a concrete successful submission with its persisted
report. -/
theorem submit_seeds_history_witness :
    postReport "u1" 42 (mkReq 90 (-180)) = .created sampleRpt ∧
    sampleRpt.statusHistory.length = 1 ∧ sampleRpt.status = "Submitted" :=
  ⟨by decide,
   (submit_seeds_history "u1" 42 (mkReq 90 (-180)) sampleRpt (by decide)).1,
   (submit_seeds_history "u1" 42 (mkReq 90 (-180)) sampleRpt
     (by decide)).2.2.1⟩

/-- Claim C5: every persisted report carries a category from the fixed 9-value
enum and a severity in Low/Medium/High; an arbitrary non-empty severity
string such as urgent is never persisted (the schema rejects the save, which
surfaces as the 500 response). -/
theorem persisted_enum_validity :
    (∀ (uid : String) (now : Nat) (req : PostReq) (rpt : ReportR),
      postReport uid now req = .created rpt →
      rpt.category ∈ validCategories ∧ rpt.severity ∈ validSeverities) ∧
    postReport "u1" 42 { mkReq 1 1 with severity := some "urgent" } =
      .err 500 "Failed to submit report" := by
  refine ⟨?_, by decide⟩
  intro uid now req rpt h
  obtain ⟨-, -, -, h4, h5, -⟩ := postReport_created_shape uid now req rpt h
  exact ⟨h4, h5⟩

/-- Witness for C5: the concrete persisted sample report has a valid category
and severity. -/
theorem persisted_enum_validity_witness :
    postReport "u1" 42 (mkReq 90 (-180)) = .created sampleRpt ∧
    sampleRpt.category ∈ validCategories ∧
    sampleRpt.severity ∈ validSeverities :=
  ⟨by decide,
   (persisted_enum_validity.1 "u1" 42 (mkReq 90 (-180)) sampleRpt
     (by decide)).1,
   (persisted_enum_validity.1 "u1" 42 (mkReq 90 (-180)) sampleRpt
     (by decide)).2⟩

/-- Claim C10: a submission whose latitude or longitude is 0 is rejected by
the truthiness-based presence check with the 400 missing-location error even
though 0 is inside the documented ranges, so no persisted report ever has
latitude 0 or longitude 0. -/
theorem zero_coordinate_rejected :
    (∀ (uid : String) (now : Nat) (req : PostReq) (d : String) (loc : LocReq)
        (imgs : List String) (cat : String),
      req.description = some d → d ≠ "" →
      req.location = some loc →
      req.images = some imgs →
      req.category = some cat → cat ≠ "" →
      (loc.lat = some 0 ∨ loc.lng = some 0) →
      postReport uid now req =
        .err 400 "Location must include lat, lng, and address") ∧
    (∀ (uid : String) (now : Nat) (req : PostReq) (rpt : ReportR),
      postReport uid now req = .created rpt →
      rpt.lat ≠ 0 ∧ rpt.lng ≠ 0) := by
  constructor
  · intro uid now req d loc imgs cat hd hdne hl hi hc hcne hz
    obtain ⟨rd, rl, ri, rc, rs⟩ := req
    dsimp only at hd hl hi hc
    subst hd; subst hl; subst hi; subst hc
    obtain ⟨ll, lg, la⟩ := loc
    dsimp only at hz
    rcases hz with h0 | h0
    · subst h0
      cases lg with
      | none => simp [postReport, hdne, hcne]
      | some v =>
        cases la with
        | none => simp [postReport, hdne, hcne]
        | some a => simp [postReport, hdne, hcne]
    · subst h0
      cases ll with
      | none => simp [postReport, hdne, hcne]
      | some v =>
        cases la with
        | none => simp [postReport, hdne, hcne]
        | some a => simp [postReport, hdne, hcne]
  · intro uid now req rpt h
    obtain ⟨-, -, -, -, -, h6, h7, -⟩ := postReport_created_shape uid now req rpt h
    exact ⟨h6, h7⟩

/-- Witness for C10: a concrete otherwise-valid submission with longitude 0 is
rejected with the missing-location error, and the concrete persisted sample
report has nonzero coordinates. -/
theorem zero_coordinate_rejected_witness :
    postReport "u1" 42 (mkReq 1 0) =
      .err 400 "Location must include lat, lng, and address" ∧
    sampleRpt.lat ≠ 0 :=
  ⟨zero_coordinate_rejected.1 "u1" 42 (mkReq 1 0) "desc"
      ⟨some 1, some 0, some "addr"⟩ ["img"] "General Issues"
      rfl (by decide) rfl rfl rfl (by decide) (Or.inr rfl),
   (zero_coordinate_rejected.2 "u1" 42 (mkReq 90 (-180)) sampleRpt
      (by decide)).1⟩

/-- Claim C9: coordinate range validation accepts the boundary values
inclusively and rejects out-of-range values with a 400 validation error:
latitude 90 is accepted while 90.0001 is rejected, longitude -180 is
accepted while -180.5 is rejected. -/
theorem coordinate_boundary :
    (∀ (uid : String) (now : Nat) (req : PostReq) (d : String) (loc : LocReq)
        (imgs : List String) (cat : String) (la ln : ℚ) (ad : String),
      req.description = some d → d ≠ "" →
      req.location = some loc →
      req.images = some imgs →
      req.category = some cat → cat ≠ "" →
      loc.lat = some la → la ≠ 0 →
      loc.lng = some ln → ln ≠ 0 →
      loc.address = some ad → ad ≠ "" →
      imgs ≠ [] →
      (la < -90 ∨ la > 90) →
      postReport uid now req =
        .err 400 "Latitude must be between -90 and 90") ∧
    (∀ (uid : String) (now : Nat) (req : PostReq) (d : String) (loc : LocReq)
        (imgs : List String) (cat : String) (la ln : ℚ) (ad : String),
      req.description = some d → d ≠ "" →
      req.location = some loc →
      req.images = some imgs →
      req.category = some cat → cat ≠ "" →
      loc.lat = some la → la ≠ 0 →
      loc.lng = some ln → ln ≠ 0 →
      loc.address = some ad → ad ≠ "" →
      imgs ≠ [] →
      ¬(la < -90 ∨ la > 90) →
      (ln < -180 ∨ ln > 180) →
      postReport uid now req =
        .err 400 "Longitude must be between -180 and 180") ∧
    postReport "u1" 42 (mkReq 90 (-180)) = .created sampleRpt ∧
    postReport "u1" 42 (mkReq (mkRat 900001 10000) 1) =
      .err 400 "Latitude must be between -90 and 90" ∧
    postReport "u1" 42 (mkReq 1 (mkRat (-361) 2)) =
      .err 400 "Longitude must be between -180 and 180" := by
  refine ⟨?_, ?_, by decide, by decide, by decide⟩
  · intro uid now req d loc imgs cat la ln ad hd hdne hl hi hc hcne
      hla hlane hln hlnne had hadne himgs hrange
    obtain ⟨rd, rl, ri, rc, rs⟩ := req
    dsimp only at hd hl hi hc
    subst hd; subst hl; subst hi; subst hc
    obtain ⟨ll, lg, laf⟩ := loc
    dsimp only at hla hln had
    subst hla; subst hln; subst had
    rcases hrange with hr | hr
    · simp [postReport, hdne, hcne, hlane, hlnne, hadne, himgs, hr]
    · simp [postReport, hdne, hcne, hlane, hlnne, hadne, himgs, hr]
  · intro uid now req d loc imgs cat la ln ad hd hdne hl hi hc hcne
      hla hlane hln hlnne had hadne himgs hlat hrange
    obtain ⟨rd, rl, ri, rc, rs⟩ := req
    dsimp only at hd hl hi hc
    subst hd; subst hl; subst hi; subst hc
    obtain ⟨ll, lg, laf⟩ := loc
    dsimp only at hla hln had
    subst hla; subst hln; subst had
    have hn1 : ¬(la < -90) := fun hx => hlat (Or.inl hx)
    have hn2 : ¬(la > 90) := fun hx => hlat (Or.inr hx)
    rcases hrange with hr | hr
    · simp [postReport, hdne, hcne, hlane, hlnne, hadne, himgs, hn1, hn2, hr]
    · simp [postReport, hdne, hcne, hlane, hlnne, hadne, himgs, hn1, hn2, hr]

/-- Witness for C9: a concrete out-of-range latitude request is rejected
through the general statement. -/
theorem coordinate_boundary_witness :
    postReport "u1" 42 (mkReq 91 1) =
      .err 400 "Latitude must be between -90 and 90" ∧
    postReport "u1" 42 (mkReq 1 (-181)) =
      .err 400 "Longitude must be between -180 and 180" :=
  ⟨coordinate_boundary.1 "u1" 42 (mkReq 91 1) "desc"
      ⟨some 91, some 1, some "addr"⟩ ["img"] "General Issues" 91 1 "addr"
      rfl (by decide) rfl rfl rfl (by decide) rfl (by decide) rfl (by decide)
      rfl (by decide) (by decide) (by decide),
   coordinate_boundary.2.1 "u1" 42 (mkReq 1 (-181)) "desc"
      ⟨some 1, some (-181), some "addr"⟩ ["img"] "General Issues" 1 (-181)
      "addr" rfl (by decide) rfl rfl rfl (by decide) rfl (by decide) rfl
      (by decide) rfl (by decide) (by decide) (by decide) (by decide)⟩

/-- Claim C1: on a well-formed id referring to an existing report, a non-admin
requester who does not own the report gets a 403 response that carries no
report data (the error constructor has no report field), while an admin gets
the 200 payload with the report regardless of ownership. -/
theorem report_by_id_authz :
    ∀ (users : List UserR) (db : List ReportR) (now : Nat) (me id : String)
      (rpt : ReportR) (u : UserR),
      isValidObjectId id = true →
      db.find? (fun r => r.id == id) = some rpt →
      users.find? (fun x => x.id == me) = some u →
      ((u.role ≠ "admin" → rpt.userId ≠ me →
        getReportById users db now me id =
          .err 403 "Access denied. You can only view your own reports.") ∧
       (u.role = "admin" →
        getReportById users db now me id =
          .ok rpt ((now : Int) - (rpt.createdAt : Int)) true
            (rpt.userId == me))) := by
  intro users db now me id rpt u hvalid hfind hfuser
  constructor
  · intro hrole hown
    simp [getReportById, hvalid, hfind, hfuser, hrole, hown]
  · intro hrole
    simp [getReportById, hvalid, hfind, hfuser, hrole]

/-- Witness for C1: citizen B is denied citizen A's report; an admin is
served it. -/
theorem report_by_id_authz_witness :
    getReportById [citizenB] [mkRpt "uA" 1] 5 "uB" "aaaaaaaaaaaaaaaaaaaaaaaa" =
      .err 403 "Access denied. You can only view your own reports." ∧
    getReportById [adminUser] [mkRpt "uA" 1] 5 "ad1" "aaaaaaaaaaaaaaaaaaaaaaaa" =
      .ok (mkRpt "uA" 1) 4 true false :=
  ⟨(report_by_id_authz [citizenB] [mkRpt "uA" 1] 5 "uB"
      "aaaaaaaaaaaaaaaaaaaaaaaa" (mkRpt "uA" 1) citizenB
      (by decide) (by decide) (by decide)).1 (by decide) (by decide),
   ((report_by_id_authz [adminUser] [mkRpt "uA" 1] 5 "ad1"
      "aaaaaaaaaaaaaaaaaaaaaaaa" (mkRpt "uA" 1) adminUser
      (by decide) (by decide) (by decide)).2 (by decide)).trans (by decide)⟩

/-- Claim C8: a non-well-formed report id is rejected with the 400 invalid-id
error, a well-formed id with no matching report yields the distinct 404
not-found error, and the two error values are different. -/
theorem report_by_id_error_kinds :
    ∀ (users : List UserR) (db : List ReportR) (now : Nat) (me id : String),
      (isValidObjectId id = false →
        getReportById users db now me id =
          .err 400 "Invalid report ID format") ∧
      (isValidObjectId id = true →
        db.find? (fun r => r.id == id) = none →
        getReportById users db now me id = .err 404 "Report not found") ∧
      (IdResult.err 400 "Invalid report ID format" ≠
        IdResult.err 404 "Report not found") := by
  intro users db now me id
  refine ⟨?_, ?_, by decide⟩
  · intro hvalid
    simp [getReportById, hvalid]
  · intro hvalid hnone
    simp [getReportById, hvalid, hnone]

/-- Witness for C8: a malformed id and a well-formed id absent from the store
produce the two distinct errors. -/
theorem report_by_id_error_kinds_witness :
    getReportById [citizenB] [] 5 "uB" "zzz" =
      .err 400 "Invalid report ID format" ∧
    getReportById [citizenB] [] 5 "uB" "aaaaaaaaaaaaaaaaaaaaaaaa" =
      .err 404 "Report not found" :=
  ⟨(report_by_id_error_kinds [citizenB] [] 5 "uB" "zzz").1 (by decide),
   (report_by_id_error_kinds [citizenB] [] 5 "uB"
      "aaaaaaaaaaaaaaaaaaaaaaaa").2.1 (by decide) (by decide)⟩

/-- For a non-admin requester the built query always pins the owner to the
requester, whatever the supplied filters are. -/
theorem buildQuery_nonadmin (u : UserR) (me : String) (q : ListQuery)
    (h : u.role ≠ "admin") :
    buildQuery u me q = ⟨some me, presentQ q.status, presentQ q.category⟩ := by
  simp [buildQuery, h]

/-- Every report returned by the list handler matches the built query. -/
theorem listCore_reports_match (u : UserR) (me : String) (db : List ReportR)
    (q : ListQuery) (page limit : Nat) :
    ∀ r ∈ (listCore u me db q page limit).reports,
      qMatches (buildQuery u me q) r = true := by
  intro r hr
  dsimp only [listCore] at hr
  have h1 : r ∈ sortDesc (db.filter (qMatches (buildQuery u me q))) :=
    List.drop_subset _ _ (List.take_subset _ _ hr)
  have h2 : r ∈ db.filter (qMatches (buildQuery u me q)) :=
    (List.mem_insertionSort olderRel).mp h1
  exact (List.mem_filter.mp h2).2

/-- Claim C2: for a non-admin requester the list query is forced to the
requester as owner — a caller-supplied userId is ignored and every returned
report belongs to the requester — while an admin request carries no owner
restriction unless the admin supplies a userId filter; the authenticated
route delegates to this query once the requesting user resolves. -/
theorem list_query_scoping :
    (∀ (u : UserR) (me : String) (db : List ReportR) (q : ListQuery)
        (page limit : Nat),
      u.role ≠ "admin" →
      ((listCore u me db q page limit).reports =
        (listCore u me db ⟨q.status, q.category, none⟩ page limit).reports ∧
       (listCore u me db q page limit).pagination =
        (listCore u me db ⟨q.status, q.category, none⟩ page limit).pagination ∧
       (∀ r ∈ (listCore u me db q page limit).reports, r.userId = me))) ∧
    (∀ (u : UserR) (me : String) (db : List ReportR) (q : ListQuery)
        (page limit : Nat),
      u.role = "admin" → q.userId = none →
      (listCore u me db q page limit).reports =
        ((sortDesc (db.filter (fun r =>
            (match presentQ q.status with
             | some s => r.status == s
             | none => true) &&
            (match presentQ q.category with
             | some c => r.category == c
             | none => true)))).drop ((page - 1) * limit)).take limit) ∧
    (∀ (u : UserR) (me uid : String) (db : List ReportR) (q : ListQuery)
        (page limit : Nat),
      u.role = "admin" → q.userId = some uid → uid ≠ "" →
      (listCore u me db q page limit).reports =
        ((sortDesc (db.filter (qMatches
            ⟨some uid, presentQ q.status, presentQ q.category⟩))).drop
          ((page - 1) * limit)).take limit) ∧
    (∀ (users : List UserR) (db : List ReportR) (me : String) (q : ListQuery)
        (page limit : Nat) (u : UserR),
      users.find? (fun x => x.id == me) = some u →
      getReports users db me q page limit =
        .ok (listCore u me db q page limit)) := by
  refine ⟨?_, ?_, ?_, ?_⟩
  · intro u me db q page limit hrole
    have hb1 := buildQuery_nonadmin u me q hrole
    have hb2 := buildQuery_nonadmin u me ⟨q.status, q.category, none⟩ hrole
    refine ⟨?_, ?_, ?_⟩
    · dsimp only [listCore]
      rw [hb1, hb2]
    · dsimp only [listCore]
      rw [hb1, hb2]
    · intro r hr
      have hq := listCore_reports_match u me db q page limit r hr
      rw [hb1] at hq
      simp only [qMatches, Bool.and_eq_true, beq_iff_eq] at hq
      exact hq.1.1
  · intro u me db q page limit hrole huid
    have hb : buildQuery u me q =
        ⟨none, presentQ q.status, presentQ q.category⟩ := by
      simp [buildQuery, hrole, huid, presentQ]
    dsimp only [listCore]
    rw [hb]
    rfl
  · intro u me uid db q page limit hrole huid hne
    have hb : buildQuery u me q =
        ⟨some uid, presentQ q.status, presentQ q.category⟩ := by
      simp [buildQuery, hrole, huid, presentQ, hne]
    dsimp only [listCore]
    rw [hb]
  · intro users db me q page limit u hfind
    simp [getReports, hfind]

/-- Witness for C2: a citizen owning 3 of 8 stored reports gets exactly their
3 reports, and a supplied userId filter changes nothing. -/
theorem list_query_scoping_witness :
    citizenA.role ≠ "admin" ∧
    (listCore citizenA "uA" demo8 ⟨none, none, some "uB"⟩ 1 10).reports =
      (listCore citizenA "uA" demo8 ⟨none, none, none⟩ 1 10).reports ∧
    (listCore citizenA "uA" demo8 ⟨none, none, some "uB"⟩ 1 10).reports.length
      = 3 :=
  ⟨by decide,
   (list_query_scoping.1 citizenA "uA" demo8 ⟨none, none, some "uB"⟩ 1 10
     (by decide)).1,
   by decide⟩

/-- Claim C7: the list endpoint skips (page-1)*limit reports of the matching
set sorted newest-first, keeps at most limit of them (and the page stays
sorted), and the metadata is totalReports = n, totalPages = ceil(n/limit),
hasNext iff page < totalPages, hasPrev iff page > 1. -/
theorem list_pagination_math :
    ∀ (u : UserR) (me : String) (db : List ReportR) (q : ListQuery)
      (page limit : Nat),
      0 < page → 0 < limit →
      ((listCore u me db q page limit).pagination.totalReports =
        (db.filter (qMatches (buildQuery u me q))).length ∧
       (listCore u me db q page limit).pagination.totalPages =
        ((db.filter (qMatches (buildQuery u me q))).length + limit - 1) /
          limit ∧
       ((listCore u me db q page limit).pagination.hasNext = true ↔
        page <
          ((db.filter (qMatches (buildQuery u me q))).length + limit - 1) /
            limit) ∧
       ((listCore u me db q page limit).pagination.hasPrev = true ↔
        1 < page) ∧
       (listCore u me db q page limit).reports =
        ((sortDesc (db.filter (qMatches (buildQuery u me q)))).drop
          ((page - 1) * limit)).take limit ∧
       List.Sorted olderRel (listCore u me db q page limit).reports) := by
  intro u me db q page limit hp hl
  refine ⟨rfl, ?_, ?_, ?_, rfl, ?_⟩
  · dsimp only [listCore]
    exact mathCeilDiv_eq _ _ hl
  · dsimp only [listCore]
    rw [mathCeilDiv_eq _ _ hl]
    exact decide_eq_true_iff
  · dsimp only [listCore]
    exact decide_eq_true_iff
  · have hs : List.Sorted olderRel
        (sortDesc (db.filter (qMatches (buildQuery u me q)))) :=
      List.sorted_insertionSort olderRel _
    exact List.Pairwise.sublist
      ((List.take_sublist _ _).trans (List.drop_sublist _ _)) hs

/-- Witness for C7: 25 matching reports with limit 10 on page 1 give
totalPages 3, hasNext and no hasPrev. -/
theorem list_pagination_math_witness :
    (0 : Nat) < 1 ∧ (0 : Nat) < 10 ∧
    (listCore adminUser "ad1" demo25 noFilters 1 10).pagination.totalPages
      = 3 ∧
    (listCore adminUser "ad1" demo25 noFilters 1 10).pagination.hasNext
      = true ∧
    (listCore adminUser "ad1" demo25 noFilters 1 10).pagination.hasPrev
      = false := by
  have h := list_pagination_math adminUser "ad1" demo25 noFilters 1 10
    (by decide) (by decide)
  exact ⟨by decide, by decide, h.2.1.trans (by decide),
    (h.2.2.1).mpr (by decide), by decide⟩
